import Mathlib

/-
Verification of the kocom-wallpad RS-485 protocol core.

Shallow embedding of `custom_components/kocom_wallpad/pywallpad/` :
`crc.py` (additive checksum), `client.py` (frame extraction, delivery
retry loop, ack correlation) and `packet.py` (per-device decoders with
class-level learned state).  Bytes are modelled as `Nat` (values < 256
where the property needs it), byte strings as `List Nat`, and the
mutable class-level `_class_last_data` dictionaries as explicit state
threaded through the decode functions.
-/

namespace Kocom

/-- Wire constant `PREFIX_HEADER = b"\xaaU"` from `const.py`. -/
def PREFIX_HEADER : List Nat := [0xAA, 0x55]

/-- Wire constant `SUFFIX_HEADER = b"\r\r"` from `const.py`. -/
def SUFFIX_HEADER : List Nat := [0x0D, 0x0D]

/-- `KocomClient.packet_length` (`client.py`). -/
def packet_length : Nat := 21

/-- `KocomClient.max_buffer_size` (`client.py`). -/
def max_buffer_size : Nat := 4096

/-- `KocomClient.max_retries` (`client.py`). -/
def max_retries : Nat := 4

/-!  ## Integrity layer (`crc.py`)  -/

/-- `calculate_checksum` (`crc.py` lines 53-60): `None` when the input is
shorter than 17 bytes, otherwise the sum of all input bytes plus one,
mod 256. -/
def calculate_checksum (packet : List Nat) : Option Nat :=
  if packet.length < 17 then none
  else some ((packet.sum + 1) % 256)

/-- `verify_checksum` (`crc.py` lines 44-51): false for frames shorter
than 21 bytes, otherwise compares byte 18 with the sum of bytes 0..17
plus one, mod 256. -/
def verify_checksum (packet : List Nat) : Bool :=
  if packet.length < 21 then false
  else ((packet.take 18).sum + 1) % 256 == packet.getD 18 0

/-- The standard-dialect frame build step of `KocomClient.send_packet`
(`client.py` lines 236-247, after the prefix has been prepended):
append the additive checksum, then the suffix marker. -/
def encode_with_checksum (packet : List Nat) : Option (List Nat) :=
  (calculate_checksum packet).map
    (fun c => packet ++ [c] ++ SUFFIX_HEADER)

/-- A concrete valid 21-byte standard frame: prefix, sixteen zero bytes,
the matching additive checksum (0x00), and the suffix marker. -/
def sampleFrame : List Nat :=
  [0xAA, 0x55] ++ List.replicate 16 0 ++ [0x00, 0x0D, 0x0D]

/-- Sum of a list decomposed at index `i`. -/
theorem sum_decomp (l : List Nat) (i : Nat) (h : i < l.length) :
    l.sum = (l.take i).sum + l[i] + (l.drop (i+1)).sum := by
  conv_lhs => rw [← List.take_append_drop i l, List.drop_eq_getElem_cons h]
  rw [List.sum_append, List.sum_cons]
  omega

/-- Replacing one element changes the sum by the difference. -/
theorem sum_set_add (l : List Nat) (i v : Nat) (h : i < l.length) :
    (l.set i v).sum + l[i] = l.sum + v := by
  rw [List.sum_set, sum_decomp l i h, if_pos h]
  omega

/-- `getD` at an index different from the one that was set. -/
theorem getD_set_ne (l : List Nat) (i j v : Nat) (hne : i ≠ j) :
    (l.set i v).getD j 0 = l.getD j 0 := by
  rw [List.getD_eq_getD_get?, List.getD_eq_getD_get?,
    List.get?_eq_getElem?, List.get?_eq_getElem?, List.getElem?_set_ne hne]

/-- Claim C2, as stated, is false: (a) a 17-byte payload, allowed by
`calculate_checksum`, builds a 20-byte frame that `verify_checksum`
rejects (it is shorter than 21 bytes); (b) flipping suffix byte 20 of a
valid frame does not falsify `verify_checksum`, which reads only bytes
0..18. -/
theorem C2_counterexample :
    (encode_with_checksum (List.replicate 17 0)).map verify_checksum
        = some false ∧
    verify_checksum sampleFrame = true ∧
    verify_checksum (sampleFrame.set 20 0) = true := by
  refine ⟨by decide, by decide, by decide⟩

/-- Claim C2 amended: the checksum round-trip holds exactly for payloads
of length 18 (prefix included), producing a 21-byte frame; flipping any
byte at positions 0..18 of a valid frame falsifies `verify_checksum`,
while flipping the suffix bytes (positions 19 and 20) leaves the
verification result unchanged. -/
theorem C2_checksum_roundtrip_and_flip :
    (∀ p : List Nat, p.length = 18 →
        (encode_with_checksum p).map verify_checksum = some true) ∧
    (∀ (f : List Nat) (i v : Nat), f.length = 21 →
        verify_checksum f = true → (∀ b ∈ f, b < 256) → v < 256 →
        i < 19 → v ≠ f.getD i 0 →
        verify_checksum (f.set i v) = false) ∧
    (∀ (f : List Nat) (i v : Nat), 19 ≤ i →
        verify_checksum (f.set i v) = verify_checksum f) := by
  refine ⟨?_, ?_, ?_⟩
  · intro p hp
    have h17 : ¬ p.length < 17 := by omega
    have hlen : (p ++ [(p.sum + 1) % 256] ++ SUFFIX_HEADER).length = 21 := by
      simp [SUFFIX_HEADER, hp]
    rw [encode_with_checksum, calculate_checksum, if_neg h17,
      Option.map_some', Option.map_some']
    rw [verify_checksum, if_neg (by omega)]
    have htake : (p ++ [(p.sum + 1) % 256] ++ SUFFIX_HEADER).take 18 = p := by
      rw [List.append_assoc, ← hp, List.take_left]
    have hget : (p ++ [(p.sum + 1) % 256] ++ SUFFIX_HEADER).getD 18 0
        = (p.sum + 1) % 256 := by
      rw [List.append_assoc, List.getD_append_right _ _ _ _ (by omega), hp]
      rfl
    rw [htake, hget]
    simp
  · intro f i v hf hv hb hvlt hi hne
    have hi21 : i < f.length := by omega
    have hvf : ((f.take 18).sum + 1) % 256 = f.getD 18 0 := by
      rw [verify_checksum, if_neg (by omega), beq_iff_eq] at hv
      exact hv
    cases h : verify_checksum (f.set i v) with
    | false => rfl
    | true =>
      exfalso
      rw [verify_checksum, if_neg (by simp [hf]), beq_iff_eq] at h
      have h' := h
      rcases Nat.lt_or_ge i 18 with hilt | hige
      · -- flipped byte participates in the summed region
        have hset18 : (f.set i v).take 18 = (f.take 18).set i v :=
          List.set_take
        have hit : i < (f.take 18).length := by
          simp [List.length_take, hf]; omega
        have hsum := sum_set_add (f.take 18) i v hit
        have hgetD : (f.set i v).getD 18 0 = f.getD 18 0 :=
          getD_set_ne f i 18 v (by omega)
        rw [hset18, hgetD, ← hvf] at h'
        have htf : (f.take 18)[i] = f[i] := List.getElem_take f
        have hmem : f[i] ∈ f := List.getElem_mem hi21
        have hflt : f[i] < 256 := hb _ hmem
        have hmod : ((f.take 18).set i v).sum + 1 ≡
            (f.take 18).sum + 1 [MOD 256] := h'
        have hmod2 : ((f.take 18).set i v).sum + 1 + f[i] ≡
            (f.take 18).sum + 1 + v [MOD 256] := by
          calc ((f.take 18).set i v).sum + 1 + f[i]
              = ((f.take 18).set i v).sum + f[i] + 1 := by omega
            _ = (f.take 18).sum + v + 1 := by rw [← htf, hsum]
            _ = (f.take 18).sum + 1 + v := by omega
            _ ≡ (f.take 18).sum + 1 + v [MOD 256] := Nat.ModEq.refl _
        have hmod3 : f[i] ≡ v [MOD 256] :=
          (Nat.ModEq.add_left_cancel hmod hmod2)
        have : f[i] % 256 = v % 256 := hmod3
        rw [Nat.mod_eq_of_lt hflt, Nat.mod_eq_of_lt hvlt] at this
        have : v = f.getD i 0 := by
          rw [List.getD_eq_getElem f 0 hi21]; omega
        exact hne this
      · -- i = 18 : the checksum byte itself was flipped
        have hi18 : i = 18 := by omega
        subst hi18
        have hset18 : (f.set 18 v).take 18 = f.take 18 := by
          rw [List.set_take, List.set_eq_of_length_le]
          simp [List.length_take, hf]
        have hgetD : (f.set 18 v).getD 18 0 = v := by
          rw [List.getD_eq_getElem _ 0 (by simp [List.length_set, hf])]
          simp [List.getElem_set]
        rw [hset18, hgetD, hvf] at h'
        rw [List.getD_eq_getElem f 0 hi21] at hne h'
        exact hne h'.symm
  · intro f i v hi
    by_cases hlen : f.length < 21
    · rw [verify_checksum, verify_checksum, if_pos (by simpa using hlen),
        if_pos hlen]
    · have htake : (f.set i v).take 18 = f.take 18 := by
        rw [List.set_take, List.set_eq_of_length_le]
        simp [List.length_take]; omega
      have hgetD : (f.set i v).getD 18 0 = f.getD 18 0 :=
        getD_set_ne f i 18 v (by omega)
      rw [verify_checksum, verify_checksum, if_neg (by simpa using hlen),
        if_neg hlen, htake, hgetD]

/-- Witness for the amended claim C2, at a length-18 payload and the
concrete valid frame with flips at positions 0 and 19. -/
theorem C2_checksum_roundtrip_witness :
    (encode_with_checksum (List.replicate 18 0)).map verify_checksum
        = some true ∧
    verify_checksum (sampleFrame.set 0 1) = false ∧
    verify_checksum (sampleFrame.set 19 0) = verify_checksum sampleFrame :=
  ⟨C2_checksum_roundtrip_and_flip.1 _ (by decide),
   C2_checksum_roundtrip_and_flip.2.1 sampleFrame 0 1 (by decide) (by decide)
     (by decide) (by decide) (by decide) (by decide),
   C2_checksum_roundtrip_and_flip.2.2 sampleFrame 19 0 (by decide)⟩

/-!  ## Frame extractor (`KocomClient.extract_packets`, `client.py` 184-213)  -/

/-- Python `buffer.find(PREFIX_HEADER)`: index of the first occurrence
of the two-byte prefix marker, `none` when absent. -/
def findHdr : List Nat → Option Nat
  | 0xAA :: 0x55 :: _ => some 0
  | _ :: rest => (findHdr rest).map (· + 1)
  | [] => none

/-- The `while` loop of `KocomClient.extract_packets`.  One iteration:
stop when fewer than 21 bytes remain; drop the whole buffer when the
prefix marker is absent; discard bytes before the marker; stop when
fewer than 21 bytes remain after the marker; skip two bytes past a
false-positive marker whose slot 19..20 is not the suffix; otherwise
slice off one 21-byte frame.  `fuel` only bounds iterations; each
iteration shortens the buffer, so `length + 1` is always enough. -/
def extractLoop : Nat → List Nat → List (List Nat) × List Nat
  | 0, buffer => ([], buffer)
  | fuel+1, buffer =>
    if buffer.length < packet_length then ([], buffer)
    else
      match findHdr buffer with
      | none => ([], [])
      | some start_pos =>
        let b := buffer.drop start_pos
        if b.length < packet_length then ([], b)
        else if (b.drop (packet_length - 2)).take 2 ≠ SUFFIX_HEADER then
          extractLoop fuel (b.drop 2)
        else
          let r := extractLoop fuel (b.drop packet_length)
          (b.take packet_length :: r.1, r.2)

/-- `KocomClient.extract_packets`: append the chunk to the retained
buffer, run the scan loop, then truncate the retained buffer to the
most recent `max_buffer_size` bytes. -/
def extract_packets (buffer data : List Nat) : List (List Nat) × List Nat :=
  let b := buffer ++ data
  let r := extractLoop (b.length + 1) b
  (r.1,
    if max_buffer_size < r.2.length then r.2.drop (r.2.length - max_buffer_size)
    else r.2)

/-- Feeding a sequence of chunks through `extract_packets` starting from
an empty retained buffer, concatenating the extracted frames. -/
def feedChunks (chunks : List (List Nat)) : List (List Nat) × List Nat :=
  chunks.foldl
    (fun a c =>
      let r := extract_packets a.2 c
      (a.1 ++ r.1, r.2))
    ([], [])

/-- A well-formed standard frame: 21 bytes, prefix marker first, suffix
marker in the last two positions. -/
def ValidFrame (f : List Nat) : Prop :=
  f.length = 21 ∧ f.take 2 = PREFIX_HEADER ∧ f.drop 19 = SUFFIX_HEADER

instance (f : List Nat) : Decidable (ValidFrame f) := by
  unfold ValidFrame; infer_instance

/-- A stream whose single valid frame is preceded by twenty bytes of
noise; splitting it after byte 21 puts the chunk boundary between the
two prefix-marker bytes. -/
def lostStream : List Nat := List.replicate 20 0 ++ sampleFrame

/-- Claim C3, as stated, is false: the stream `lostStream` fed whole
yields its one valid frame, but fed as the partition after byte 21 (a
boundary inside the prefix marker) yields no frame at all — the scan
drops the entire buffer, including the pending `0xAA`, when it finds no
complete marker. -/
theorem C3_counterexample :
    lostStream.take 21 ++ lostStream.drop 21 = lostStream ∧
    (extract_packets [] lostStream).1 = [sampleFrame] ∧
    (feedChunks [lostStream.take 21, lostStream.drop 21]).1 = [] := by
  refine ⟨by decide, by decide, by decide⟩

/-- A list whose first two elements are the prefix marker. -/
theorem take2_shape (l : List Nat) (h : l.take 2 = [0xAA, 0x55]) :
    ∃ t, l = 0xAA :: 0x55 :: t := by
  match l, h with
  | [], h => simp at h
  | [a], h => simp [List.take] at h
  | a :: b :: t, h =>
    simp [List.take] at h
    exact ⟨t, by simp [h.1, h.2]⟩

/-- The scan loop keeps a buffer shorter than one frame untouched. -/
theorem extractLoop_short (fuel : Nat) (b : List Nat) (h : b.length < 21) :
    extractLoop (fuel+1) b = ([], b) := by
  simp only [extractLoop]
  rw [if_pos (by simpa [packet_length] using h)]

/-- On a buffer that begins with a complete well-formed frame, one pass
of the scan loop slices that frame off and continues on the rest. -/
theorem extractLoop_step (fuel : Nat) (f tail : List Nat)
    (hflen : f.length = 21) (hfpre : f.take 2 = PREFIX_HEADER)
    (hfsuf : f.drop 19 = SUFFIX_HEADER) :
    extractLoop (fuel+1) (f ++ tail)
      = (f :: (extractLoop fuel tail).1, (extractLoop fuel tail).2) := by
  obtain ⟨f2, hf2⟩ := take2_shape f (by simpa [PREFIX_HEADER] using hfpre)
  have hlen : (f ++ tail).length = 21 + tail.length := by simp [hflen]
  have hfind : findHdr (f ++ tail) = some 0 := by
    rw [hf2]; rfl
  have hfl : f.length = packet_length := by rw [hflen]; rfl
  have hsuf : ((f ++ tail).drop (packet_length - 2)).take 2 = SUFFIX_HEADER := by
    have h19 : packet_length - 2 = 19 := rfl
    rw [h19, List.drop_append_eq_append_drop, hfsuf, hflen]
    rw [show (19 : Nat) - 21 = 0 from rfl, List.drop_zero]
    exact List.take_left' (by simp [SUFFIX_HEADER])
  simp only [extractLoop]
  rw [if_neg (by simp [hlen, packet_length]), hfind]
  simp only [List.drop_zero]
  rw [if_neg (by simp [hlen, packet_length]), if_neg (by simp [hsuf])]
  rw [List.take_left' hfl, List.drop_left' hfl]

/-- Scanning any prefix of a concatenation of well-formed frames yields
exactly the whole frames it contains and retains the remaining partial
frame. -/
theorem extractLoop_aligned :
    ∀ (fs : List (List Nat)), (∀ f ∈ fs, ValidFrame f) →
    ∀ (fuel : Nat) (b : List Nat), b <+: fs.flatten → b.length + 1 ≤ fuel →
    ∃ fs1 fs2 t, fs = fs1 ++ fs2 ∧ b = fs1.flatten ++ t ∧ t.length < 21 ∧
      t <+: fs2.flatten ∧ extractLoop fuel b = (fs1, t) := by
  intro fs
  induction fs with
  | nil =>
    intro _ fuel b hpre hfuel
    have hb : b = [] := List.prefix_nil.mp (by simpa using hpre)
    subst hb
    cases fuel with
    | zero => omega
    | succ fuel0 =>
      exact ⟨[], [], [], rfl, rfl, by simp, by simp,
        extractLoop_short fuel0 [] (by simp)⟩
  | cons f fs' ih =>
    intro hall fuel b hpre hfuel
    obtain ⟨hflen, hfpre, hfsuf⟩ := hall f (by simp)
    cases fuel with
    | zero => omega
    | succ fuel0 =>
      by_cases hlt : b.length < 21
      · exact ⟨[], f :: fs', b, rfl, rfl, hlt, hpre,
          extractLoop_short fuel0 b hlt⟩
      · have hbeq : b = f ++ fs'.flatten.take (b.length - 21) := by
          rw [List.prefix_iff_eq_take] at hpre
          conv_lhs => rw [hpre]
          rw [List.flatten_cons, List.take_append_eq_append_take,
            List.take_of_length_le (by omega), hflen]
        set tail := fs'.flatten.take (b.length - 21) with htail
        have htailpre : tail <+: fs'.flatten := List.take_prefix _ _
        have htaillen : b.length = 21 + tail.length := by
          have := congrArg List.length hbeq
          simpa [hflen] using this
        obtain ⟨fs1', fs2', t', hsplit, hbd, htl, htp, heval⟩ :=
          ih (fun g hg => hall g (by simp [hg])) fuel0 tail htailpre
            (by omega)
        refine ⟨f :: fs1', fs2', t', by simp [hsplit], ?_, htl, htp, ?_⟩
        · rw [hbeq, hbd, List.flatten_cons, List.append_assoc]
        · rw [hbeq, extractLoop_step fuel0 f tail hflen hfpre hfsuf, heval]

/-- Folding `extract_packets` over chunks of a stream of well-formed
frames, starting from any accumulated output and a retained partial
buffer, recovers all the frames. -/
theorem feedChunks_aux :
    ∀ (chunks fs : List (List Nat)), (∀ f ∈ fs, ValidFrame f) →
    ∀ (t : List Nat) (acc : List (List Nat)),
      t.length < 21 → t ++ chunks.flatten = fs.flatten →
      chunks.foldl
        (fun a c =>
          let r := extract_packets a.2 c
          (a.1 ++ r.1, r.2)) (acc, t)
        = (acc ++ fs, []) := by
  intro chunks
  induction chunks with
  | nil =>
    intro fs hall t acc htlen hjoin
    simp only [List.flatten_nil, List.append_nil] at hjoin
    match fs, hjoin with
    | [], hjoin =>
      simp only [List.flatten_nil] at hjoin
      simp [hjoin]
    | g :: fs', hjoin =>
      exfalso
      obtain ⟨hglen, -, -⟩ := hall g (by simp)
      have := congrArg List.length hjoin
      simp [hglen] at this
      omega
  | cons c cs ih =>
    intro fs hall t acc htlen hjoin
    simp only [List.foldl_cons]
    have hpre : t ++ c <+: fs.flatten := by
      refine ⟨cs.flatten, ?_⟩
      rw [List.append_assoc,
        (rfl : c ++ cs.flatten = (c :: cs).flatten)]
      exact hjoin
    obtain ⟨fs1, fs2, t', hsplit, hbd, htl, -, heval⟩ :=
      extractLoop_aligned fs hall ((t ++ c).length + 1) (t ++ c) hpre
        (by omega)
    have hstep : extract_packets t c = (fs1, t') := by
      rw [extract_packets]
      simp only [heval]
      rw [if_neg (by simp [max_buffer_size]; omega)]
    rw [hstep]
    have hrest : t' ++ cs.flatten = fs2.flatten := by
      have h1 : fs1.flatten ++ (t' ++ cs.flatten)
          = (t ++ c) ++ cs.flatten := by
        rw [← List.append_assoc, ← hbd]
      have h2 : (t ++ c) ++ cs.flatten = fs.flatten := by
        rw [List.append_assoc,
          (rfl : c ++ cs.flatten = (c :: cs).flatten)]
        exact hjoin
      have h3 : fs1.flatten ++ (t' ++ cs.flatten)
          = fs1.flatten ++ fs2.flatten := by
        rw [h1, h2, hsplit, List.flatten_append]
      exact List.append_cancel_left h3
    have := ih fs2 (fun g hg => hall g (by simp [hsplit, hg])) t'
      (acc ++ fs1) htl hrest
    rw [this, hsplit, List.append_assoc]

/-- Claim C3 amended: chunk-boundary invariance holds for streams that
are concatenations of well-formed frames — any partition of such a
stream into consecutive chunks yields exactly the frame sequence and an
empty retained buffer.  (For arbitrary streams the property fails: see
the counterexample, where a boundary inside the prefix marker makes the
extractor drop a pending partial marker.) -/
theorem C3_chunked_extraction_valid_frames (fs chunks : List (List Nat))
    (hall : ∀ f ∈ fs, ValidFrame f)
    (hjoin : chunks.flatten = fs.flatten) :
    feedChunks chunks = (fs, []) := by
  rw [feedChunks]
  have := feedChunks_aux chunks fs hall [] [] (by simp) (by simpa using hjoin)
  simpa using this

/-- Witness for the amended claim C3: one valid frame split mid-frame
into two chunks is still extracted. -/
theorem C3_chunked_extraction_witness :
    feedChunks [sampleFrame.take 10, sampleFrame.drop 10]
      = ([sampleFrame], []) :=
  C3_chunked_extraction_valid_frames [sampleFrame]
    [sampleFrame.take 10, sampleFrame.drop 10] (by decide) (by decide)

/-!  ## Packet model (`packet.py`)

`DeviceType` codes are those of `enums.py`.  `packet.py` in this
snapshot also refers to `DeviceType.VENT` (the fan/ventilation code
`0x48`, named `FAN` in `enums.py`) and `DeviceType.IGNORE_2` (absent
from `enums.py`; modelled with the placeholder code `0xFD`, distinct
from every real code — no claim depends on its value).  -/

/-- `DeviceType(code).name.lower()`: the lowercase enum member name for
each known device-type code, `none` for a code outside the enum (where
Python raises `ValueError`). -/
def deviceTypeName (code : Nat) : Option String :=
  if code == 0x01 then some "wallpad"
  else if code == 0x02 then some "private"
  else if code == 0x08 then some "public"
  else if code == 0x0E then some "light"
  else if code == 0x2C then some "gas"
  else if code == 0x33 then some "doorlock"
  else if code == 0x36 then some "thermostat"
  else if code == 0x39 then some "ac"
  else if code == 0x3B then some "outlet"
  else if code == 0x44 then some "ev"
  else if code == 0x48 then some "fan"
  else if code == 0x60 then some "motion"
  else if code == 0x86 then some "ignore"
  else if code == 0x98 then some "iaq"
  else if code == 0xFF then some "none"
  else none

/-- `KocomPacket.__init__` field extraction (`packet.py` lines 62-77):
`packet_type` is the high nibble and `seq_number` the low nibble of
byte 3, `dest` is bytes 5-6, `src` bytes 7-8, `command` byte 9,
`payload` bytes 10-17, `checksum` byte 18.  The enum wrappers
`PacketType(...)` and `Command(...)` are modelled separately by
`validEnums`. -/
structure KocomPacket where
  packet_type : Nat
  seq_number : Nat
  dest : Nat × Nat
  src : Nat × Nat
  command : Nat
  payload : List Nat
  checksum : Nat
deriving DecidableEq

def KocomPacket.ofBytes (p : List Nat) : KocomPacket where
  packet_type := p.getD 3 0 / 16 % 16
  seq_number := p.getD 3 0 % 16
  dest := (p.getD 5 0, p.getD 6 0)
  src := (p.getD 7 0, p.getD 8 0)
  command := p.getD 9 0
  payload := (p.drop 10).take 8
  checksum := p.getD 18 0

/-- `PacketType(...)` and `Command(...)` in `KocomPacket.__init__` raise
`ValueError` outside the enum members; true exactly when both byte
values are members. -/
def validEnums (p : List Nat) : Bool :=
  (p.getD 3 0 / 16 % 16 == 0x09 || p.getD 3 0 / 16 % 16 == 0x0B ||
    p.getD 3 0 / 16 % 16 == 0x0D) &&
  (p.getD 9 0 == 0x00 || p.getD 9 0 == 0x01 || p.getD 9 0 == 0x02 ||
    p.getD 9 0 == 0x04 || p.getD 9 0 == 0x3A || p.getD 9 0 == 0xFF)

/-- The effective address of the reporting device
(`KocomPacket.device_type`, lines 83-88): the source address, unless
its type byte is the wallpad's own code `0x01`, in which case the
destination address. -/
def KocomPacket.address (k : KocomPacket) : Nat × Nat :=
  if k.src.1 == 0x01 then k.dest else k.src

/-- `KocomPacket.room_id`. -/
def KocomPacket.room_id (k : KocomPacket) : String := toString k.address.2

/-- `KocomPacket.device_name()` (lowercase); the empty string stands for
the `ValueError` Python raises on an unknown type code — decoders are
only reached for known codes. -/
def KocomPacket.device_name (k : KocomPacket) : String :=
  (deviceTypeName k.address.1).getD ""

/-- `DeviceType(code).name.upper()`: the enum member name itself, which
is already uppercase. -/
def deviceTypeNameUpper (code : Nat) : Option String :=
  if code == 0x01 then some "WALLPAD"
  else if code == 0x02 then some "PRIVATE"
  else if code == 0x08 then some "PUBLIC"
  else if code == 0x0E then some "LIGHT"
  else if code == 0x2C then some "GAS"
  else if code == 0x33 then some "DOORLOCK"
  else if code == 0x36 then some "THERMOSTAT"
  else if code == 0x39 then some "AC"
  else if code == 0x3B then some "OUTLET"
  else if code == 0x44 then some "EV"
  else if code == 0x48 then some "FAN"
  else if code == 0x60 then some "MOTION"
  else if code == 0x86 then some "IGNORE"
  else if code == 0x98 then some "IAQ"
  else if code == 0xFF then some "NONE"
  else none

/-- `KocomPacket.device_name(capital=True)`. -/
def KocomPacket.device_name_cap (k : KocomPacket) : String :=
  (deviceTypeNameUpper k.address.1).getD ""

/-- `KocomPacket.device_id`: `f"{device_name()}_{room_id}"`. -/
def KocomPacket.device_id (k : KocomPacket) : String :=
  k.device_name ++ "_" ++ k.room_id

/-- `KocomPacket.device_id` as a partial function: `none` models the
`ValueError` raised for an unknown device-type code. -/
def KocomPacket.device_id_opt (k : KocomPacket) : Option String :=
  (deviceTypeName k.address.1).map (fun n => n ++ "_" ++ k.room_id)

/-!  ## Ack correlation (`KocomClient._process_queue`, `client.py` 124-170)  -/

/-- The acknowledgment test of `_process_queue` lines 147-150: the
inbound decoded packet acknowledges the pending command when the
device-instance ids match AND the sequence numbers match AND the
addresses are echoed swapped (inbound dest = command src, inbound src =
command dest).  The source reads the attribute as `.sequence` although
`KocomPacket.__init__` names the field `seq_number`; the comparison is
embedded with the evidently intended field. -/
def ack_match (last cmd : KocomPacket) : Bool :=
  last.device_id_opt == cmd.device_id_opt &&
  last.seq_number == cmd.seq_number &&
  last.dest == cmd.src &&
  last.src == cmd.dest

/-- The wait loop of `_process_queue` over the inbound decoded packets
observed during the one-second window: `found_match` is true exactly
when some observed packet passes `ack_match`. -/
def found_match (inbound : List KocomPacket) (cmd : KocomPacket) : Bool :=
  inbound.any (fun lp => ack_match lp cmd)

/-- An outbound light command frame (SEND, sequence 0xC, wallpad to
light room 1). -/
def cmdLightFrame : KocomPacket :=
  KocomPacket.ofBytes
    ([0xAA, 0x55, 0x30, 0xBC, 0x00, 0x0E, 0x01, 0x01, 0x00, 0x00]
      ++ List.replicate 8 0 ++ [0x00, 0x0D, 0x0D])

/-- An inbound light state frame for the same device instance (RECV,
sequence 0x1, light room 1 to wallpad). -/
def echoLightFrame : KocomPacket :=
  KocomPacket.ofBytes
    ([0xAA, 0x55, 0x30, 0xD1, 0x00, 0x01, 0x00, 0x0E, 0x01, 0x00]
      ++ List.replicate 8 0 ++ [0x00, 0x0D, 0x0D])

/-- Claim C1, as stated, is false: an inbound decoded frame whose
device-instance id equals the pending command's target id
(`light_1` on both sides) does not acknowledge the command, because the
code additionally compares the sequence number (0x1 vs 0xC here) and
the swapped address echo. -/
theorem C1_counterexample :
    echoLightFrame.device_id_opt = cmdLightFrame.device_id_opt ∧
    echoLightFrame.device_id_opt = some "light_1" ∧
    found_match [echoLightFrame] cmdLightFrame = false := by
  refine ⟨by decide, ?_, by decide⟩
  decide

/-- Claim C1 amended: within the bounded ack wait window the command is
acknowledged exactly when an inbound decoded frame arrives whose
device-instance id matches the pending command's target AND whose
sequence number equals the command's AND whose source/destination
addresses are the command's swapped — not by device-instance-id match
alone.  (At runtime even this never succeeds: the code reads
`last_packet.sequence` but the field is named `seq_number`, so the
comparison raises `AttributeError` and the command is retried.) -/
theorem C1_ack_requires_full_match (inbound : List KocomPacket)
    (cmd : KocomPacket) :
    found_match inbound cmd = true ↔
      ∃ lp ∈ inbound, lp.device_id_opt = cmd.device_id_opt ∧
        lp.seq_number = cmd.seq_number ∧ lp.dest = cmd.src ∧
        lp.src = cmd.dest := by
  simp [found_match, ack_match, List.any_eq_true, Bool.and_eq_true,
    beq_iff_eq, and_assoc]

/-!  ## Delivery retry (`_process_queue` / `_handle_retry`, `client.py` 124-182)  -/

/-- Terminal state of one queued command in the delivery machine. -/
inductive DeliveryOutcome where
  | acknowledged
  | failed
deriving DecidableEq

/-- The delivery loop for one queued command that never receives a
matching acknowledgment: each pass sends the queued bytes
(`connection.send`), the one-second wait finds no match, and
`_handle_retry` either gives up (`retries >= max_retries`: the command
is marked done and dropped, no exception reaches the caller) or
increments `retries`, sleeps `0.12 * 2 ** retries` seconds (modelled in
milliseconds) and re-queues the identical bytes.  Returns the list of
transmitted byte buffers, the list of backoff delays, and the outcome. -/
def deliverNoAck (pkt : List Nat) (maxR retries : Nat) :
    List (List Nat) × List Nat × DeliveryOutcome :=
  if maxR ≤ retries then ([pkt], [], DeliveryOutcome.failed)
  else
    let r := deliverNoAck pkt maxR (retries + 1)
    (pkt :: r.1, 120 * 2 ^ (retries + 1) :: r.2.1, r.2.2)
termination_by maxR - retries
decreasing_by omega

/-- Closed form of the no-acknowledgment delivery loop. -/
theorem deliverNoAck_eq (pkt : List Nat) (maxR : Nat) :
    ∀ (d retries : Nat), maxR - retries = d → retries ≤ maxR →
    deliverNoAck pkt maxR retries =
      (List.replicate (maxR - retries + 1) pkt,
       (List.range (maxR - retries)).map
         (fun k => 120 * 2 ^ (retries + k + 1)),
       DeliveryOutcome.failed) := by
  intro d
  induction d with
  | zero =>
    intro retries hd hle
    rw [deliverNoAck, if_pos (by omega), hd]
    simp
  | succ d ihd =>
    intro retries hd hle
    rw [deliverNoAck, if_neg (by omega), ihd (retries + 1) (by omega) (by omega)]
    have h2 : maxR - (retries + 1) = d := by omega
    rw [hd, h2]
    refine Prod.ext ?_ (Prod.ext ?_ rfl)
    · simp [List.replicate_succ]
    · show 120 * 2 ^ (retries + 1) :: (List.range d).map
          (fun k => 120 * 2 ^ (retries + 1 + k + 1))
        = (List.range (d + 1)).map (fun k => 120 * 2 ^ (retries + k + 1))
      rw [List.range_succ_eq_map, List.map_cons, List.map_map]
      refine congrArg₂ _ (by norm_num) (congrFun (congrArg _ ?_) _)
      funext k
      simp [Function.comp]
      ring_nf

/-- Claim C6 confirmed: a queued command with no matching
acknowledgment is transmitted once and then retransmitted, with the
identical bytes, exactly `max_retries` more times (`max_retries + 1`
transmissions in total — the cap, not cap+1 or cap-1), with a doubling
backoff before each retransmission, after which the command is marked
failed and dropped without an exception.  Stated for the configured
`max_retries = 4` and for every retry cap. -/
theorem C6_retry_cap_exact (pkt : List Nat) :
    deliverNoAck pkt max_retries 0 =
      (List.replicate (max_retries + 1) pkt, [240, 480, 960, 1920],
       DeliveryOutcome.failed) ∧
    ∀ maxR : Nat, deliverNoAck pkt maxR 0 =
      (List.replicate (maxR + 1) pkt,
       (List.range maxR).map (fun k => 120 * 2 ^ (k + 1)),
       DeliveryOutcome.failed) := by
  have hgen : ∀ maxR : Nat, deliverNoAck pkt maxR 0 =
      (List.replicate (maxR + 1) pkt,
       (List.range maxR).map (fun k => 120 * 2 ^ (k + 1)),
       DeliveryOutcome.failed) := by
    intro maxR
    have := deliverNoAck_eq pkt maxR maxR 0 (by omega) (by omega)
    simpa using this
  refine ⟨?_, hgen⟩
  rw [hgen max_retries]
  norm_num [max_retries]
  decide

/-!  ## Device-state records

Attribute keys are the string constants of `pywallpad/const.py`; the
members this snapshot's `const.py` lacks (`AWAY`, `CODE`, `HOTWATER`,
`HEATWATER`, `OPER_MODE`, `RING`) are rendered with their obvious
values — no claim depends on the exact spelling.  -/

def POWER : String := "power"
def BRIGHTNESS : String := "brightness"
def LEVEL : String := "level"
def AWAY : String := "away"
def TARGET_TEMP : String := "target_temp"
def CURRENT_TEMP : String := "current_temp"
def STATE : String := "state"
def CODE : String := "code"
def ERROR : String := "error"
def HOTWATER : String := "hotwater"
def HEATWATER : String := "heatwater"
def TEMPERATURE : String := "temperature"
def OPER_MODE : String := "oper_mode"
def FAN_MODE : String := "fan_mode"
def VENT_MODE : String := "vent_mode"
def FAN_SPEED : String := "fan_speed"
def CO2 : String := "CO2"
def PM10 : String := "PM10"
def PM25 : String := "PM25"
def VOC : String := "VOC"
def HUMIDITY : String := "humidity"
def TIME : String := "time"
def DIRECTION : String := "direction"
def FLOOR : String := "floor"
def RING : String := "ring"
def SHUTDOWN : String := "shutdown"

/-- A typed attribute value of a decoded device-state record.  `time`
holds the wall-clock instant (modelled as `Nat`) captured at decode
time by the motion and door-phone decoders. -/
inductive AttrVal where
  | b (x : Bool)
  | n (x : Nat)
  | s (x : String)
  | ns (xs : List Nat)
  | time (x : Option Nat)
deriving DecidableEq

/-- The `Device` dataclass (`packet.py` lines 45-56). -/
structure Device where
  device_type : String
  device_id : String
  room_id : Option String := none
  state : List (String × AttrVal) := []
  sub_id : Option String := none
deriving DecidableEq

/-!  ## Light decoder (`LightPacket`, `packet.py` 126-192)  -/

/-- Per-device-instance learned state of `LightPacket._class_last_data`:
the observed channel indices (`"ids"`) and the observed brightness
levels (`"bri_lv"`), both kept sorted. -/
structure LightLast where
  ids : List Nat
  bri_lv : List Nat
deriving DecidableEq

/-- The entry created on first sight of a device id
(`LightPacket.__init__`). -/
def LightLast.init : LightLast := ⟨[], []⟩

/-- Python `list.append(x)` followed by `list.sort()`. -/
def appendSorted (l : List Nat) (x : Nat) : List Nat :=
  (l ++ [x]).insertionSort (· ≤ ·)

/-- The broadcast guard `len(set(list(payload))) == 1 and
list(payload)[0] == 0xFF`: every payload byte equals `0xFF`. -/
def allFF (payload : List Nat) : Bool :=
  match payload with
  | [] => false
  | v :: rest => rest.all (· == v) && v == 0xFF

/-- The `for i, value in enumerate(self.payload[:8])` loop of
`LightPacket.parse_data`: channel discovery (suppressed under the
all-`0xFF` guard), brightness-level learning, and one record per known
channel. -/
def lightScan (name room devId : String) (guard : Bool) :
    List (Nat × Nat) → LightLast → LightLast × List Device
  | [], st => (st, [])
  | (i, value) :: rest, st =>
    let is_on := value == 0xFF
    let brightness := if is_on then 0 else value
    let st1 :=
      if !guard && is_on && !(st.ids.contains i) then
        { st with ids := appendSorted st.ids i }
      else st
    let st2 :=
      if decide (0 < brightness) && st1.ids.contains i &&
          !(st1.bri_lv.contains brightness) then
        { st1 with bri_lv := appendSorted st1.bri_lv brightness }
      else st1
    let out : List Device :=
      if st2.ids.contains i then
        let has_brightness := !st2.bri_lv.isEmpty
        let state :=
          if has_brightness then
            [(POWER, AttrVal.b (decide (0 < value))),
             (BRIGHTNESS, AttrVal.n brightness),
             (LEVEL, AttrVal.ns st2.bri_lv)]
          else [(POWER, AttrVal.b is_on)]
        [{ device_type := name, device_id := devId, room_id := some room,
           state := state, sub_id := some (toString i) }]
      else []
    let r := lightScan name room devId guard rest st2
    (r.1, out ++ r.2)

/-- `LightPacket.parse_data`, with the class-level learned entry for
this device instance passed and returned explicitly. -/
def LightPacket_parse_data (k : KocomPacket) (st : LightLast) :
    LightLast × List Device :=
  lightScan k.device_name k.room_id k.device_id (allFF k.payload)
    (k.payload.take 8).enum st

/-- The learned state after a sequence of decoded light frames. -/
def lightFold (ks : List KocomPacket) (st : LightLast) : LightLast :=
  ks.foldl (fun s k => (LightPacket_parse_data k s).1) st

/-- Membership survives Python append-then-sort. -/
theorem mem_appendSorted {l : List Nat} {x y : Nat} (h : x ∈ l) :
    x ∈ appendSorted l y := by
  unfold appendSorted
  rw [(List.perm_insertionSort (· ≤ ·) (l ++ [y])).mem_iff]
  simp [h]

/-- One scan pass only grows the learned sets. -/
theorem lightScan_mono (name room devId : String) (guard : Bool) :
    ∀ (l : List (Nat × Nat)) (st : LightLast),
      (∀ x ∈ st.ids, x ∈ (lightScan name room devId guard l st).1.ids) ∧
      (∀ x ∈ st.bri_lv, x ∈ (lightScan name room devId guard l st).1.bri_lv) := by
  intro l
  induction l with
  | nil => intro st; exact ⟨fun x hx => hx, fun x hx => hx⟩
  | cons p rest ih =>
    intro st
    obtain ⟨i, value⟩ := p
    rw [lightScan]
    refine ⟨fun x hx => ?_, fun x hx => ?_⟩
    all_goals
      apply_rules [(ih _).1, (ih _).2]
      dsimp only
      split_ifs <;> simp_all [mem_appendSorted]

/-- With the all-`0xFF` guard active, no new channel is learned. -/
theorem lightScan_guard_ids (name room devId : String) :
    ∀ (l : List (Nat × Nat)) (st : LightLast),
      (lightScan name room devId true l st).1.ids = st.ids := by
  intro l
  induction l with
  | nil => intro st; rfl
  | cons p rest ih =>
    intro st
    obtain ⟨i, value⟩ := p
    rw [lightScan]
    dsimp only
    split_ifs <;> simp_all [ih]

/-- A received light state frame (RECV, light room 1 to wallpad) with
the given 8-byte payload. -/
def lightFrame (payload : List Nat) : KocomPacket :=
  KocomPacket.ofBytes
    ([0xAA, 0x55, 0x30, 0xD1, 0x00, 0x01, 0x00, 0x0E, 0x01, 0x00]
      ++ payload ++ [0x00, 0x0D, 0x0D])

def lightPay1 : List Nat := List.replicate 8 0
def lightPay2 : List Nat := [0, 0, 0xFF, 0, 0, 0, 0, 0]

/-- Learned state after the first scenario frame (channel 2 byte 0x00). -/
def lightSt1 : LightLast :=
  (LightPacket_parse_data (lightFrame lightPay1) LightLast.init).1

/-- Learned state after the second scenario frame (channel 2 byte 0xFF). -/
def lightSt2 : LightLast :=
  (LightPacket_parse_data (lightFrame lightPay2) lightSt1).1

/-- Claim C4 confirmed: (1) one decode only grows the learned channel
indices and brightness levels; (2) hence over any frame sequence the
learned sets grow monotonically; (3) in the scenario where payload
index 2 goes 0x00, 0xFF, 0x00, the second frame learns channel 2 and
reports it with power true, and the third frame reports channel 2 with
power false while the channel stays learned; (4) a frame whose eight
payload bytes are all 0xFF learns no new channel. -/
theorem C4_light_learning :
    (∀ (k : KocomPacket) (st : LightLast),
        (∀ x ∈ st.ids, x ∈ (LightPacket_parse_data k st).1.ids) ∧
        (∀ x ∈ st.bri_lv, x ∈ (LightPacket_parse_data k st).1.bri_lv)) ∧
    (∀ (ks : List KocomPacket) (st : LightLast),
        (∀ x ∈ st.ids, x ∈ (lightFold ks st).ids) ∧
        (∀ x ∈ st.bri_lv, x ∈ (lightFold ks st).bri_lv)) ∧
    (lightSt1.ids = [] ∧
     lightSt2.ids = [2] ∧
     (LightPacket_parse_data (lightFrame lightPay2) lightSt1).2 =
       [{ device_type := "light", device_id := "light_1",
          room_id := some "1", state := [(POWER, AttrVal.b true)],
          sub_id := some "2" }] ∧
     (LightPacket_parse_data (lightFrame lightPay1) lightSt2).1.ids = [2] ∧
     (LightPacket_parse_data (lightFrame lightPay1) lightSt2).2 =
       [{ device_type := "light", device_id := "light_1",
          room_id := some "1", state := [(POWER, AttrVal.b false)],
          sub_id := some "2" }]) ∧
    (∀ st : LightLast,
        (LightPacket_parse_data (lightFrame (List.replicate 8 0xFF)) st).1.ids
          = st.ids) := by
  have hstep : ∀ (k : KocomPacket) (st : LightLast),
      (∀ x ∈ st.ids, x ∈ (LightPacket_parse_data k st).1.ids) ∧
      (∀ x ∈ st.bri_lv, x ∈ (LightPacket_parse_data k st).1.bri_lv) :=
    fun k st =>
      lightScan_mono k.device_name k.room_id k.device_id (allFF k.payload)
        (k.payload.take 8).enum st
  refine ⟨hstep, ?_, ⟨by decide, by decide, by decide, by decide, by decide⟩, ?_⟩
  · intro ks
    induction ks with
    | nil => intro st; exact ⟨fun x hx => hx, fun x hx => hx⟩
    | cons k ks ih =>
      intro st
      refine ⟨fun x hx => ?_, fun x hx => ?_⟩
      · exact (ih _).1 x ((hstep k st).1 x hx)
      · exact (ih _).2 x ((hstep k st).2 x hx)
  · intro st
    have hff : allFF (lightFrame (List.replicate 8 0xFF)).payload = true := by
      decide
    unfold LightPacket_parse_data
    rw [hff]
    exact lightScan_guard_ids _ _ _ _ st

/-- Witness for claim C4 at a concrete learned state: a known channel
and a known brightness level survive decoding a frame. -/
theorem C4_light_learning_witness :
    2 ∈ (LightPacket_parse_data (lightFrame lightPay1)
          (⟨[2], [80]⟩ : LightLast)).1.ids ∧
    80 ∈ (lightFold [lightFrame lightPay1, lightFrame lightPay2]
          (⟨[2], [80]⟩ : LightLast)).bri_lv :=
  ⟨(C4_light_learning.1 (lightFrame lightPay1) ⟨[2], [80]⟩).1 2 (by decide),
   (C4_light_learning.2.1 [lightFrame lightPay1, lightFrame lightPay2]
      ⟨[2], [80]⟩).2 80 (by decide)⟩

/-!  ## Thermostat decoder (`ThermostatPacket`, `packet.py` 275-381)  -/

/-- Per-device-instance learned state of
`ThermostatPacket._class_last_data`: the remembered ("sticky") target
temperature `"ltt"`.  (`__init__` also writes a top-level `"ihw"` flag
that only the commented-out hot-water block reads; it is omitted.) -/
structure ThermoLast where
  ltt : Nat
deriving DecidableEq

/-- The entry created on first sight of a device id
(`ThermostatPacket.__init__`): `{"ltt": 22}`. -/
def ThermoLast.init : ThermoLast := ⟨22⟩

/-- `ThermostatPacket.parse_data` (lines 288-317): the remembered target
temperature is overwritten only while the power nibble is on and the
reported byte differs; emits the primary climate record, the error
record, and hot- and heat-water temperature records when those bytes are
positive.  (`error_code` is rendered as a two-digit decimal string in
the source; it is carried here as the byte value.) -/
def ThermostatPacket_parse_data (k : KocomPacket) (st : ThermoLast) :
    ThermoLast × List Device :=
  let pl := k.payload
  let is_on := pl.getD 0 0 / 16 == 1
  let is_away := pl.getD 1 0 % 16 == 1
  let target_temp := pl.getD 2 0
  let hotwater_temp := pl.getD 3 0
  let current_temp := pl.getD 4 0
  let heatwater_temp := pl.getD 5 0
  let error_code := pl.getD 6 0
  let is_error := !(error_code == 0)
  let st' := if is_on && !(st.ltt == target_temp) then ⟨target_temp⟩ else st
  let primary : Device :=
    { device_type := k.device_name, room_id := some k.room_id,
      device_id := k.device_id,
      state := [(POWER, AttrVal.b is_on), (AWAY, AttrVal.b is_away),
                (TARGET_TEMP, AttrVal.n st'.ltt),
                (CURRENT_TEMP, AttrVal.n current_temp)] }
  let errorDev : Device :=
    { device_type := k.device_name, device_id := k.device_id,
      state := [(STATE, AttrVal.b is_error), (CODE, AttrVal.n error_code)],
      sub_id := some ERROR }
  (st',
    [primary, errorDev]
      ++ (if 0 < hotwater_temp then
            [{ device_type := k.device_name, device_id := k.device_id,
               state := [(STATE, AttrVal.n hotwater_temp)],
               sub_id := some (HOTWATER ++ " " ++ TEMPERATURE) }]
          else [])
      ++ (if 0 < heatwater_temp then
            [{ device_type := k.device_name, device_id := k.device_id,
               state := [(STATE, AttrVal.n heatwater_temp)],
               sub_id := some (HEATWATER ++ " " ++ TEMPERATURE) }]
          else []))

/-- The target-temperature attribute of the primary record of a decode
result. -/
def primaryTarget (r : ThermoLast × List Device) : Option AttrVal :=
  match r.2 with
  | d :: _ => d.state.lookup TARGET_TEMP
  | [] => none

/-- Class-level learned state after a sequence of decoded thermostat
frames, starting from the state created on first sight. -/
def thermoFold (ks : List KocomPacket) : ThermoLast :=
  ks.foldl (fun s k => (ThermostatPacket_parse_data k s).1) ThermoLast.init

/-- A received thermostat state frame (thermostat room 1 to wallpad)
with the given 8-byte payload. -/
def thermoFrame (payload : List Nat) : KocomPacket :=
  KocomPacket.ofBytes
    ([0xAA, 0x55, 0x30, 0xD1, 0x00, 0x01, 0x00, 0x36, 0x01, 0x00]
      ++ payload ++ [0x00, 0x0D, 0x0D])

/-- The remembered target temperature after one decode, in closed form:
overwritten exactly when the frame's power nibble is on and the
reported target byte differs. -/
theorem thermo_ltt_update (k : KocomPacket) (st : ThermoLast) :
    (ThermostatPacket_parse_data k st).1 =
      if k.payload.getD 0 0 / 16 == 1 && !(st.ltt == k.payload.getD 2 0)
      then ⟨k.payload.getD 2 0⟩ else st := rfl

/-- A frame whose power nibble is off leaves the learned state
untouched. -/
theorem thermo_off_keeps (k : KocomPacket) (st : ThermoLast)
    (h : ¬ k.payload.getD 0 0 / 16 = 1) :
    (ThermostatPacket_parse_data k st).1 = st := by
  have h0 : (k.payload.getD 0 0 / 16 == 1) = false := beq_eq_false_iff_ne.mpr h
  rw [thermo_ltt_update, h0, Bool.false_and]
  rfl

/-- Claim C5 confirmed: the remembered target temperature is overwritten
exactly when the decoding frame's power flag is on and its target byte
differs from the remembered value, and the primary record always
carries the (post-update) remembered value; in particular, after a
power-on frame with target 22, a power-off frame with target byte 0
still decodes with target temperature 22. -/
theorem C5_thermostat_sticky_target :
    (∀ (k : KocomPacket) (st : ThermoLast),
        (ThermostatPacket_parse_data k st).1 =
          (if k.payload.getD 0 0 / 16 == 1 && !(st.ltt == k.payload.getD 2 0)
           then ⟨k.payload.getD 2 0⟩ else st) ∧
        primaryTarget (ThermostatPacket_parse_data k st) =
          some (AttrVal.n (ThermostatPacket_parse_data k st).1.ltt)) ∧
    (primaryTarget
        (ThermostatPacket_parse_data
          (thermoFrame [0x01, 0, 0, 0, 0, 0, 0, 0])
          (ThermostatPacket_parse_data
            (thermoFrame [0x11, 0, 22, 0, 0, 0, 0, 0]) ThermoLast.init).1)
      = some (AttrVal.n 22)) := by
  refine ⟨fun k st => ⟨thermo_ltt_update k st, ?_⟩, by decide⟩
  rfl

/-- Claim C10 confirmed: the remembered target temperature is created at
22 before any frame is decoded, and as long as every decoded frame for
the instance has the power flag off, the primary record's target
temperature stays 22 regardless of the target bytes carried. -/
theorem C10_thermostat_default_22 :
    ThermoLast.init.ltt = 22 ∧
    (∀ ks : List KocomPacket,
        (∀ g ∈ ks, ¬ g.payload.getD 0 0 / 16 = 1) →
        thermoFold ks = ThermoLast.init) ∧
    (∀ (k : KocomPacket) (ks : List KocomPacket),
        (∀ g ∈ ks, ¬ g.payload.getD 0 0 / 16 = 1) →
        ¬ k.payload.getD 0 0 / 16 = 1 →
        primaryTarget (ThermostatPacket_parse_data k (thermoFold ks))
          = some (AttrVal.n 22)) := by
  have hfold : ∀ ks : List KocomPacket,
      (∀ g ∈ ks, ¬ g.payload.getD 0 0 / 16 = 1) →
      thermoFold ks = ThermoLast.init := by
    intro ks
    have : ∀ st, (∀ g ∈ ks, ¬ g.payload.getD 0 0 / 16 = 1) →
        ks.foldl (fun s k => (ThermostatPacket_parse_data k s).1) st = st := by
      induction ks with
      | nil => intro st _; rfl
      | cons k ks ih =>
        intro st hall
        rw [List.foldl_cons, thermo_off_keeps k st (hall k (by simp))]
        exact ih st (fun g hg => hall g (by simp [hg]))
    exact fun h => this ThermoLast.init h
  refine ⟨rfl, hfold, fun k ks hks hk => ?_⟩
  rw [hfold ks hks]
  have hprim : primaryTarget (ThermostatPacket_parse_data k ThermoLast.init)
      = some (AttrVal.n
          (ThermostatPacket_parse_data k ThermoLast.init).1.ltt) := rfl
  rw [hprim, thermo_off_keeps k ThermoLast.init hk]
  rfl

/-- Witness for claim C10 at a concrete all-off frame sequence. -/
theorem C10_thermostat_default_22_witness :
    primaryTarget
        (ThermostatPacket_parse_data (thermoFrame [0x01, 0, 7, 0, 0, 0, 0, 0])
          (thermoFold [thermoFrame [0x01, 0, 9, 0, 0, 0, 0, 0]]))
      = some (AttrVal.n 22) :=
  C10_thermostat_default_22.2.2 (thermoFrame [0x01, 0, 7, 0, 0, 0, 0, 0])
    [thermoFrame [0x01, 0, 9, 0, 0, 0, 0, 0]] (by decide) (by decide)

/-!  ## Elevator decoder (`EVPacket`, `packet.py` 640-721)  -/

/-- Per-device-instance learned state of `EVPacket._class_last_data`:
whether any floor has been reported (`"avil_floor"`) and the last
stored floor string (`"last_floor"`). -/
structure EVLast where
  avil_floor : Bool
  last_floor : Option String
deriving DecidableEq

/-- The entry created on first sight of a device id
(`EVPacket.__init__`). -/
def EVLast.init : EVLast := ⟨false, none⟩

/-- `EVPacket.Direction(value).name`; the empty string stands for the
`ValueError` raised outside 0..3. -/
def evDirectionName (d : Nat) : String :=
  match d with
  | 0 => "IDLE"
  | 1 => "DOWN"
  | 2 => "UP"
  | 3 => "ARRIVAL"
  | _ => ""

/-- The floor string stored and emitted for a floor byte: high nibble
`0x08` denotes a basement level (`"B"` plus the low nibble), otherwise
the decimal rendering of the byte (`str(payload[1])`). -/
def evFloorString (b : Nat) : String :=
  if b / 16 == 8 then "B" ++ toString (b % 16) else toString b

/-- The unconditional power record of `EVPacket.parse_data`. -/
def evPowerDev (k : KocomPacket) : Device :=
  { device_type := k.device_name_cap, room_id := some k.room_id,
    device_id := k.device_id, state := [(POWER, AttrVal.b false)] }

/-- The unconditional direction record of `EVPacket.parse_data`. -/
def evDirDev (k : KocomPacket) : Device :=
  { device_type := k.device_name_cap, room_id := some k.room_id,
    device_id := k.device_id,
    state := [(STATE, AttrVal.s (evDirectionName (k.payload.getD 0 0)))],
    sub_id := some DIRECTION }

/-- The conditional floor record of `EVPacket.parse_data`. -/
def evFloorDev (k : KocomPacket) (fl : String) : Device :=
  { device_type := k.device_name_cap, room_id := some k.room_id,
    device_id := k.device_id, state := [(STATE, AttrVal.s fl)],
    sub_id := some FLOOR }

/-- `EVPacket.parse_data` (lines 664-706): always emits the power and
direction records; emits a floor record when the floor byte is nonzero
or a floor was ever seen, storing and showing the floor string of the
current byte. -/
def EVPacket_parse_data (k : KocomPacket) (st : EVLast) :
    EVLast × List Device :=
  let fl := k.payload.getD 1 0
  if decide (0 < fl) || st.avil_floor then
    let fs := evFloorString fl
    (⟨true, some fs⟩, [evPowerDev k, evDirDev k, evFloorDev k fs])
  else (st, [evPowerDev k, evDirDev k])

/-- A received elevator state frame (EV to wallpad, room 1) with the
given 8-byte payload. -/
def evFrame (payload : List Nat) : KocomPacket :=
  KocomPacket.ofBytes
    ([0xAA, 0x55, 0x30, 0xD1, 0x00, 0x01, 0x00, 0x44, 0x01, 0x00]
      ++ payload ++ [0x00, 0x0D, 0x0D])

def evPayIdle : List Nat := List.replicate 8 0
def evPayFloor5 : List Nat := [0, 5, 0, 0, 0, 0, 0, 0]

/-- Learned EV state after the floor-0 then floor-5 scenario frames. -/
def evSt2 : EVLast :=
  (EVPacket_parse_data (evFrame evPayFloor5)
    (EVPacket_parse_data (evFrame evPayIdle) EVLast.init).1).1

/-- Claim C8, as stated, is false in its last part: after floor bytes
0, 5, 0 the third frame does emit a floor record, but it shows the
current byte "0" — the stored last floor is overwritten with "0" —
rather than the last known nonzero floor "5". -/
theorem C8_counterexample :
    evSt2.last_floor = some "5" ∧
    (EVPacket_parse_data (evFrame evPayIdle) evSt2).2 =
      [evPowerDev (evFrame evPayIdle), evDirDev (evFrame evPayIdle),
       evFloorDev (evFrame evPayIdle) "0"] ∧
    (EVPacket_parse_data (evFrame evPayIdle) evSt2).1.last_floor
      = some "0" ∧
    evFloorDev (evFrame evPayIdle) "0" ≠ evFloorDev (evFrame evPayIdle) "5" := by
  refine ⟨by decide, by decide, by decide, by decide⟩

/-- Claim C8 amended: a floor-0 frame before any nonzero floor emits no
floor record and leaves the state untouched; a nonzero-floor frame
emits a floor record with that floor and marks floor reporting as
learned; every subsequent frame — floor byte 0 included — still emits
a floor record (the floor never silently disappears), but the record
shows the current frame's floor byte rendered as a string (e.g. "0")
and overwrites the remembered floor with it, not the last known
nonzero floor. -/
theorem C8_ev_floor_emission :
    (∀ (k : KocomPacket) (st : EVLast), st.avil_floor = false →
        k.payload.getD 1 0 = 0 →
        EVPacket_parse_data k st = (st, [evPowerDev k, evDirDev k])) ∧
    (∀ (k : KocomPacket) (st : EVLast), 0 < k.payload.getD 1 0 →
        EVPacket_parse_data k st =
          (⟨true, some (evFloorString (k.payload.getD 1 0))⟩,
           [evPowerDev k, evDirDev k,
            evFloorDev k (evFloorString (k.payload.getD 1 0))])) ∧
    (∀ (k : KocomPacket) (st : EVLast), st.avil_floor = true →
        EVPacket_parse_data k st =
          (⟨true, some (evFloorString (k.payload.getD 1 0))⟩,
           [evPowerDev k, evDirDev k,
            evFloorDev k (evFloorString (k.payload.getD 1 0))])) := by
  refine ⟨fun k st h0 hfl => ?_, fun k st hfl => ?_, fun k st h1 => ?_⟩
  · rw [EVPacket_parse_data, hfl, h0]
    simp
  · rw [EVPacket_parse_data, decide_eq_true hfl, Bool.true_or]
    simp
  · rw [EVPacket_parse_data, h1, Bool.or_true]
    simp

/-- Witness for the amended claim C8 at the concrete 0, 5, 0 floor
sequence. -/
theorem C8_ev_floor_emission_witness :
    EVPacket_parse_data (evFrame evPayIdle) EVLast.init =
      (EVLast.init,
       [evPowerDev (evFrame evPayIdle), evDirDev (evFrame evPayIdle)]) ∧
    EVPacket_parse_data (evFrame evPayFloor5)
        (EVPacket_parse_data (evFrame evPayIdle) EVLast.init).1 =
      (⟨true, some "5"⟩,
       [evPowerDev (evFrame evPayFloor5), evDirDev (evFrame evPayFloor5),
        evFloorDev (evFrame evPayFloor5) "5"]) ∧
    EVPacket_parse_data (evFrame evPayIdle) evSt2 =
      (⟨true, some "0"⟩,
       [evPowerDev (evFrame evPayIdle), evDirDev (evFrame evPayIdle),
        evFloorDev (evFrame evPayIdle) "0"]) := by
  refine ⟨C8_ev_floor_emission.1 (evFrame evPayIdle) EVLast.init
      (by decide) (by decide), ?_, ?_⟩
  · have := C8_ev_floor_emission.2.1 (evFrame evPayFloor5)
      (EVPacket_parse_data (evFrame evPayIdle) EVLast.init).1 (by decide)
    rw [this]
    decide
  · have := C8_ev_floor_emission.2.2 (evFrame evPayIdle) evSt2 (by decide)
    rw [this]
    decide

/-!  ## Motion decoder (`MotionPacket`, `packet.py` 609-637)  -/

/-- Per-device-instance learned state of
`MotionPacket._class_last_data`: the last detection instant. -/
structure MotionLast where
  detect_time : Option Nat
deriving DecidableEq

/-- The entry created on first sight of a device id
(`MotionPacket.__init__`). -/
def MotionLast.init : MotionLast := ⟨none⟩

/-- `MotionPacket.parse_data` (lines 623-637): detection is
`command == Command.DETECT` (0x04); on detection the current wall
clock (`datetime.now()`, the `now` argument here) is stored and
reported in the record's time attribute. -/
def MotionPacket_parse_data (k : KocomPacket) (st : MotionLast)
    (now : Nat) : MotionLast × List Device :=
  let is_detected := k.command == 0x04
  let st' := if is_detected then (⟨some now⟩ : MotionLast) else st
  (st',
   [{ device_type := k.device_name, room_id := some k.room_id,
      device_id := k.device_id,
      state := [(STATE, AttrVal.b is_detected),
                (TIME, AttrVal.time st'.detect_time)] }])

/-!  ## Door-phone decoder (`DoorPhonePacket`, `packet.py` 801-907)  -/

/-- `DoorPhonePacket.__init__` field extraction: `dest` is byte 4,
`src` byte 5, `src2` byte 11, `event` byte 15, `event2` byte 16. -/
structure DoorPhonePacket where
  dest : Nat
  src : Nat
  src2 : Nat
  event : Nat
  event2 : Nat
deriving DecidableEq

def DoorPhonePacket.ofBytes (p : List Nat) : DoorPhonePacket :=
  ⟨p.getD 4 0, p.getD 5 0, p.getD 11 0, p.getD 15 0, p.getD 16 0⟩

/-- `DoorPhonePacket.entrance_type.name.lower()`: `"private"` when both
`dest` and `src` are `0x02`, else `"public"`; also the room id. -/
def DoorPhonePacket.room_id (d : DoorPhonePacket) : String :=
  if d.dest == 2 && d.src == 2 then "private" else "public"

def DoorPhonePacket.device_id (d : DoorPhonePacket) : String :=
  "doorphone_" ++ d.room_id

/-- Door-phone learned state (`DoorPhonePacket._last_data` entry).
`__init__` resets both keys to `None` on every packet construction. -/
structure DoorPhoneLast where
  ringing_time : Option Nat
  phone_id : Option Nat
deriving DecidableEq

def DoorPhoneLast.init : DoorPhoneLast := ⟨none, none⟩

/-- `DoorPhonePacket.parse_data` (lines 843-907): ring detection stores
the wall clock; the paired handset id is learned from the first `src2`
outside `{0xFF, 0x31}`; returns the three regular records and the
force-update records.  (Source line 855 tests
`self.event == 0x24 and self.event == 0x00` — the same attribute twice
— so that branch never fires; it is embedded as written.) -/
def DoorPhonePacket_parse_data (d : DoorPhonePacket) (st : DoorPhoneLast)
    (now : Nat) : DoorPhoneLast × List Device × List Device :=
  let is_ringing := d.event == 0x01 && d.event2 == 0x01
  let st1 := if is_ringing then { st with ringing_time := some now } else st
  let st2 :=
    if st1.phone_id == none && !(d.src2 == 0xFF) && !(d.src2 == 0x31) then
      { st1 with phone_id := some d.src2 }
    else st1
  let fu1 : List Device :=
    if d.event == 0x24 && d.event == 0x00 then
      [{ device_type := "doorphone", device_id := d.device_id,
         room_id := some d.room_id, state := [(POWER, AttrVal.b false)] }]
    else []
  let fu2 : List Device :=
    if d.event == 0x04 && d.event2 == 0x00 then
      [{ device_type := "doorphone", device_id := d.device_id,
         room_id := some d.room_id, state := [(POWER, AttrVal.b false)],
         sub_id := some SHUTDOWN }]
    else []
  (st2,
   [{ device_type := "doorphone", device_id := d.device_id,
      room_id := some d.room_id,
      state := [(STATE, AttrVal.b is_ringing),
                (TIME, AttrVal.time st1.ringing_time)],
      sub_id := some RING },
    { device_type := "doorphone", device_id := d.device_id,
      room_id := some d.room_id, state := [(POWER, AttrVal.b false)] },
    { device_type := "doorphone", device_id := d.device_id,
      room_id := some d.room_id, state := [(POWER, AttrVal.b false)],
      sub_id := some SHUTDOWN }],
   fu1 ++ fu2)

/-- Drop the decode-time attribute from every record. -/
def stripTime (devs : List Device) : List Device :=
  devs.map (fun d => { d with state := d.state.filter (fun kv => !(kv.1 == TIME)) })

/-- A motion DETECT frame (motion sensor room 1 to wallpad,
command byte 0x04). -/
def motionFrame : KocomPacket :=
  KocomPacket.ofBytes
    ([0xAA, 0x55, 0x30, 0xD1, 0x00, 0x01, 0x00, 0x60, 0x01, 0x04]
      ++ List.replicate 8 0 ++ [0x00, 0x0D, 0x0D])

/-- Claim C9, as stated, is false: the motion decoder reads the wall
clock at decode time, so two decode calls on the identical frame and
identical learned state, made at different instants, return different
results (both the stored detection time and the record's time
attribute differ). -/
theorem C9_counterexample :
    MotionPacket_parse_data motionFrame MotionLast.init 0 ≠
      MotionPacket_parse_data motionFrame MotionLast.init 1 := by
  decide

/-- Claim C9 amended: decode output is a deterministic function of the
frame bytes, the learned state, and the decode-time clock; the clock
influences only the time attribute of the motion and door-phone
records, so after erasing that attribute the outputs of two decode
calls with the same frame and learned state agree for every pair of
decode instants (the other decoders never read the clock — their
embeddings take no clock argument at all). -/
theorem C9_decode_deterministic_modulo_time :
    (∀ (k : KocomPacket) (st : MotionLast) (t1 t2 : Nat),
        stripTime (MotionPacket_parse_data k st t1).2 =
          stripTime (MotionPacket_parse_data k st t2).2) ∧
    (∀ (d : DoorPhonePacket) (st : DoorPhoneLast) (t1 t2 : Nat),
        stripTime (DoorPhonePacket_parse_data d st t1).2.1 =
          stripTime (DoorPhonePacket_parse_data d st t2).2.1 ∧
        (DoorPhonePacket_parse_data d st t1).2.2 =
          (DoorPhonePacket_parse_data d st t2).2.2) :=
  ⟨fun _ _ _ _ => rfl, fun _ _ _ _ => ⟨rfl, rfl⟩⟩

/-!  ## Remaining standard decoders (`packet.py` 217-606)  -/

/-- Per-device-instance learned state of `OutletPacket._class_last_data`. -/
structure OutletLast where
  ids : List Nat
deriving DecidableEq

def OutletLast.init : OutletLast := ⟨[]⟩

/-- The channel loop of `OutletPacket.parse_data` (lines 229-259): like
the light loop but power-only. -/
def outletScan (name room devId : String) (guard : Bool) :
    List (Nat × Nat) → OutletLast → OutletLast × List Device
  | [], st => (st, [])
  | (i, value) :: rest, st =>
    let is_on := value == 0xFF
    let st1 :=
      if !guard && is_on && !(st.ids.contains i) then
        (⟨appendSorted st.ids i⟩ : OutletLast)
      else st
    let out : List Device :=
      if st1.ids.contains i then
        [{ device_type := name, device_id := devId, room_id := some room,
           state := [(POWER, AttrVal.b is_on)], sub_id := some (toString i) }]
      else []
    let r := outletScan name room devId guard rest st1
    (r.1, out ++ r.2)

def OutletPacket_parse_data (k : KocomPacket) (st : OutletLast) :
    OutletLast × List Device :=
  outletScan k.device_name k.room_id k.device_id (allFF k.payload)
    (k.payload.take 8).enum st

/-- `ACPacket.parse_data` (lines 401-421); operating and fan modes are
carried by their numeric enum values, `FanMode.UNKNOWN` (0) is
normalised to `LOW` (1) for display. -/
def ACPacket_parse_data (k : KocomPacket) : List Device :=
  let pl := k.payload
  let is_on := pl.getD 0 0 == 0x10
  let oper_mode := pl.getD 1 0
  let fan_mode := pl.getD 2 0
  [{ device_type := k.device_name_cap, room_id := some k.room_id,
     device_id := k.device_id,
     state := [(POWER, AttrVal.b is_on), (OPER_MODE, AttrVal.n oper_mode),
               (FAN_MODE, AttrVal.n (if fan_mode == 0 then 1 else fan_mode)),
               (CURRENT_TEMP, AttrVal.n (pl.getD 4 0)),
               (TARGET_TEMP, AttrVal.n (pl.getD 5 0))] }]

/-- Per-device-instance learned state of `VentPacket._class_last_data`:
the sticky CO2-sensor-present flag `"ics"`. -/
structure VentLast where
  ics : Bool
deriving DecidableEq

def VentLast.init : VentLast := ⟨false⟩

/-- `VentPacket.parse_data` (lines 481-524); vent mode `UNKNOWN` (0) is
displayed as `VENTILATION` (1), fan speed `UNKNOWN` (0) as `LOW`
(0x40); the CO2 record is emitted when the reading is positive or the
presence flag was ever set. -/
def VentPacket_parse_data (k : KocomPacket) (st : VentLast) :
    VentLast × List Device :=
  let pl := k.payload
  let is_on := pl.getD 0 0 / 16 == 1
  let vent_mode := pl.getD 1 0
  let fan_speed := pl.getD 2 0
  let co2_ppm := pl.getD 4 0 * 100 + pl.getD 5 0
  let error_code := pl.getD 7 0
  let base : List Device :=
    [{ device_type := k.device_name, room_id := some k.room_id,
       device_id := k.device_id,
       state := [(POWER, AttrVal.b (is_on && !(fan_speed == 0))),
                 (VENT_MODE, AttrVal.n
                   (if vent_mode == 0 then 1 else vent_mode)),
                 (FAN_SPEED, AttrVal.n
                   (if fan_speed == 0 then 0x40 else fan_speed))] },
     { device_type := k.device_name, device_id := k.device_id,
       state := [(STATE, AttrVal.b (!(error_code == 0))),
                 (CODE, AttrVal.n error_code)],
       sub_id := some ERROR }]
  if decide (0 < co2_ppm) || st.ics then
    (⟨true⟩,
     base ++ [{ device_type := k.device_name, device_id := k.device_id,
                state := [(STATE, AttrVal.n co2_ppm)], sub_id := some CO2 }])
  else (st, base)

/-- `IAQPacket.parse_data` (lines 554-577): one record per sensor with a
positive reading, in the insertion order of the sensor mapping. -/
def IAQPacket_parse_data (k : KocomPacket) : List Device :=
  let pl := k.payload
  let sensors : List (String × Nat) :=
    [(PM10, pl.getD 0 0), (PM25, pl.getD 1 0),
     (CO2, pl.getD 2 0 * 256 + pl.getD 3 0),
     (VOC, pl.getD 4 0 * 256 + pl.getD 5 0),
     (TEMPERATURE, pl.getD 6 0), (HUMIDITY, pl.getD 7 0)]
  (sensors.filter (fun sv => decide (0 < sv.2))).map
    (fun sv =>
      { device_type := k.device_name_cap, device_id := k.device_id,
        state := [(STATE, AttrVal.n sv.2)], sub_id := some sv.1 })

/-- `GasPacket.parse_data` (lines 587-595): one boolean record, power is
`command == Command.ON` (0x01). -/
def GasPacket_parse_data (k : KocomPacket) : List Device :=
  [{ device_type := k.device_name, room_id := some k.room_id,
     device_id := k.device_id,
     state := [(POWER, AttrVal.b (k.command == 0x01))] }]

/-!  ## Parser dispatch (`PacketParser`, `packet.py` 724-798)  -/

/-- The decoder classes of `device_class_map`
(`PacketParser._get_packet_instance`); `plain` stands for the base
`KocomPacket` class used for the wallpad/ignore codes. -/
inductive PacketKind where
  | light | outlet | thermostat | ac | vent | iaq | gas | motion | ev
  | plain
deriving DecidableEq

/-- `device_class_map.get(device_type)`: `DeviceType.VENT` resolves to
the fan/ventilation code `0x48` and `DeviceType.IGNORE_2` to the
placeholder `0xFD` (see the packet-model note); an unmapped code gives
`None` (the unknown-device warning path). -/
def device_class_map (code : Nat) : Option PacketKind :=
  if code == 0x0E then some PacketKind.light
  else if code == 0x3B then some PacketKind.outlet
  else if code == 0x36 then some PacketKind.thermostat
  else if code == 0x39 then some PacketKind.ac
  else if code == 0x48 then some PacketKind.vent
  else if code == 0x98 then some PacketKind.iaq
  else if code == 0x2C then some PacketKind.gas
  else if code == 0x60 then some PacketKind.motion
  else if code == 0x44 then some PacketKind.ev
  else if code == 0x01 || code == 0x86 || code == 0xFD then
    some PacketKind.plain
  else none

/-- The device-type selection of `PacketParser.parse` (lines 727-736):
the type byte of whichever address slot is opposite the wallpad's own
code, `None` when neither slot carries it. -/
def PacketParser_parse_type (p : List Nat) : Option Nat :=
  if p.getD 5 0 == 1 then some (p.getD 7 0)
  else if p.getD 7 0 == 1 then some (p.getD 5 0)
  else none

/-- `PacketParser._get_packet_instance` (lines 772-798) up to the class
choice: `None` both when no slot carries the wallpad code and when the
code is not in `device_class_map` (each path logs a warning and
returns `None`, so `parse_state` yields no records). -/
def get_packet_instance (dt : Option Nat) : Option PacketKind :=
  match dt with
  | none => none
  | some c => device_class_map c

/-- The class-level learned-state dictionaries of every stateful
decoder, keyed by device-instance id. -/
structure Session where
  light : String → LightLast
  outlet : String → OutletLast
  thermo : String → ThermoLast
  vent : String → VentLast
  motion : String → MotionLast
  ev : String → EVLast

def Session.init : Session :=
  ⟨fun _ => LightLast.init, fun _ => OutletLast.init,
   fun _ => ThermoLast.init, fun _ => VentLast.init,
   fun _ => MotionLast.init, fun _ => EVLast.init⟩

def updateKey {α : Type} (f : String → α) (key : String) (v : α) :
    String → α :=
  fun x => if x == key then v else f x

/-- `PacketParser.parse_state` (lines 738-770).  `none` models an
exception escaping to the caller (an enum `ValueError` during packet
construction or decoding); otherwise the result carries one entry per
returned packet — `none` for the base packet returned on the
RECV-SCAN / wallpad / ignore path (its `_device` is `None`), `some`
for each decoded device record — plus the updated class-level state. -/
def PacketParser_parse_state (p : List Nat) (s : Session) (now : Nat) :
    Option (List (Option Device) × Session) :=
  match get_packet_instance (PacketParser_parse_type p) with
  | none => some ([], s)
  | some kind =>
    if !(validEnums p) then none
    else
      let k := KocomPacket.ofBytes p
      if (k.packet_type == 0x0D && k.command == 0x3A) ||
         (k.address.1 == 0x01 || k.address.1 == 0x86 ||
          k.address.1 == 0xFD) then
        some ([none], s)
      else
        match kind with
        | PacketKind.light =>
          let r := LightPacket_parse_data k (s.light k.device_id)
          some (r.2.map some,
            { s with light := updateKey s.light k.device_id r.1 })
        | PacketKind.outlet =>
          let r := OutletPacket_parse_data k (s.outlet k.device_id)
          some (r.2.map some,
            { s with outlet := updateKey s.outlet k.device_id r.1 })
        | PacketKind.thermostat =>
          let r := ThermostatPacket_parse_data k (s.thermo k.device_id)
          some (r.2.map some,
            { s with thermo := updateKey s.thermo k.device_id r.1 })
        | PacketKind.ac =>
          if 3 < k.payload.getD 1 0 || 3 < k.payload.getD 2 0 then none
          else some ((ACPacket_parse_data k).map some, s)
        | PacketKind.vent =>
          let vm := k.payload.getD 1 0
          let fs := k.payload.getD 2 0
          if !((vm == 0 || vm == 1 || vm == 2 || vm == 3 || vm == 5 ||
                vm == 8) &&
               (fs == 0 || fs == 0x40 || fs == 0x80 || fs == 0xC0)) then
            none
          else
            let r := VentPacket_parse_data k (s.vent k.device_id)
            some (r.2.map some,
              { s with vent := updateKey s.vent k.device_id r.1 })
        | PacketKind.iaq => some ((IAQPacket_parse_data k).map some, s)
        | PacketKind.gas => some ((GasPacket_parse_data k).map some, s)
        | PacketKind.motion =>
          let r := MotionPacket_parse_data k (s.motion k.device_id) now
          some (r.2.map some,
            { s with motion := updateKey s.motion k.device_id r.1 })
        | PacketKind.ev =>
          if 3 < k.payload.getD 0 0 then none
          else
            let r := EVPacket_parse_data k (s.ev k.device_id)
            some (r.2.map some,
              { s with ev := updateKey s.ev k.device_id r.1 })
        | PacketKind.plain => some ([], s)

/-- A checksum-valid frame whose non-wallpad slot carries the unknown
device-type code 0x55. -/
def unknownTypeFrame : List Nat :=
  [0xAA, 0x55, 0x30, 0xD1, 0x00, 0x01, 0x00, 0x55, 0x01, 0x00]
    ++ List.replicate 8 0 ++ [0x00, 0x0D, 0x0D]

/-- A frame in which neither address slot carries the wallpad's own
type code 0x01. -/
def noWallpadFrame : List Nat :=
  [0xAA, 0x55, 0x30, 0xD1, 0x00, 0x0E, 0x01, 0x0E, 0x01, 0x00]
    ++ List.replicate 8 0 ++ [0x00, 0x0D, 0x0D]

/-- Claim C7, as stated, is false: for an unknown device-type code, and
for a frame with the wallpad code in neither slot, `parse_state`
returns the empty record list — the frame is dropped (after a logged
warning) and no generic unparsed record is produced.  No exception is
raised (the result is `some`, not `none`). -/
theorem C7_counterexample :
    (PacketParser_parse_state unknownTypeFrame Session.init 0).map Prod.fst
      = some [] ∧
    (PacketParser_parse_state noWallpadFrame Session.init 0).map Prod.fst
      = some [] := ⟨rfl, rfl⟩

/-- Claim C7 amended: for every frame whose derived device-type code is
unknown (or whose slots never carry the wallpad code), parsing raises
no error but returns the empty record list with the learned state
untouched — the frame is dropped after a logged warning; no generic
unparsed record is produced. -/
theorem C7_unknown_type_drops_frame (p : List Nat) (s : Session)
    (now : Nat)
    (h : get_packet_instance (PacketParser_parse_type p) = none) :
    PacketParser_parse_state p s now = some ([], s) := by
  rw [PacketParser_parse_state, h]

/-- Witness for the amended claim C7 at the two concrete frames. -/
theorem C7_unknown_type_drops_frame_witness :
    PacketParser_parse_state unknownTypeFrame Session.init 0
      = some ([], Session.init) ∧
    PacketParser_parse_state noWallpadFrame Session.init 0
      = some ([], Session.init) :=
  ⟨C7_unknown_type_drops_frame unknownTypeFrame Session.init 0 (by decide),
   C7_unknown_type_drops_frame noWallpadFrame Session.init 0 (by decide)⟩

end Kocom
